import Mathlib

/-!
Shallow embedding of the pyzabbix JSON-RPC client (`pyzabbix/__init__.py`).

The client is modelled as a pure state machine: the mutable attributes of
`ZabbixAPI` become the fields of `ClientState`, each network round-trip is
parametrised by the `WireResponse` the transport would deliver, and Python
exceptions become values of an `Except` result.  Python truthiness of the
values involved (strings, lists, dicts, the `version` attribute) is modelled
explicitly.
-/

namespace Pyzabbix

/-- JSON-like values, used for `params` and the `result` field. -/
inductive Value where
  | null
  | boolean (b : Bool)
  | num (n : Int)
  | str (s : String)
  | arr (xs : List Value)
  | obj (fields : List (String × Value))

/-- Python truthiness of a JSON value: `None`, `False`, `0`, `""`, `[]`, `{}`
are falsy. -/
def Value.falsy : Value → Bool
  | .null => true
  | .boolean b => !b
  | .num n => n == 0
  | .str s => s == ""
  | .arr xs => xs.isEmpty
  | .obj fs => fs.isEmpty

/-- A parsed semantic version (`semantic_version.Version`), restricted to the
`major.minor.patch` triple the client ever compares. -/
structure Version where
  major : Nat
  minor : Nat
  patch : Nat
deriving Repr, DecidableEq

/-- Strict lexicographic order on versions, as `semantic_version` compares
release triples. -/
def Version.lt (a b : Version) : Bool :=
  Nat.blt a.major b.major ||
    (a.major == b.major &&
      (Nat.blt a.minor b.minor ||
        (a.minor == b.minor && Nat.blt a.patch b.patch)))

/-- Versions compared with `a >= b`. -/
def Version.ge (a b : Version) : Bool :=
  !(Version.lt a b)

/-- The mutable attributes of a `ZabbixAPI` instance.  `version` is `none`
while the attribute still holds the falsy empty string `""`. -/
structure ClientState where
  use_authenticate : Bool
  use_api_token : Bool
  auth : String
  id : Nat
  timeout : Option Nat
  url : String
  version : Option Version
  detect_version : Bool
deriving Repr, DecidableEq

/-- The JSON-RPC request envelope (`ZabbixAPIRequest`); `auth = none` models
the absent `NotRequired` key. -/
structure Payload where
  jsonrpc : String
  method : String
  params : Value
  auth : Option String
  id : Nat

/-- The `error` member of a response (`Error` TypedDict); `data = none` models
the absent `NotRequired` key. -/
structure RpcError where
  code : Int
  message : String
  data : Option String

/-- A decoded JSON-RPC response body (`ZabbixAPIResponse`). -/
structure RpcResponse where
  jsonrpc : String
  result : Value
  error : Option RpcError
  id : Int

/-- What the HTTP transport delivers for one POST: whether
`raise_for_status()` passes, the body text, and the JSON decoding of the body
(`none` when `resp.json()` raises `JSONDecodeError`). -/
structure WireResponse where
  status_ok : Bool
  body_text : String
  parsed : Option RpcResponse

/-- The distinguishable kinds of `ZabbixAPIException` the client raises:
the empty-body error, the undecodable-body error, and the server-reported
error (whose `data` has already been defaulted). -/
inductive ZabbixKind where
  | emptyResponse
  | parseFailure (text : String)
  | apiErr (code : Int) (message : String) (data : String)

/-- Exceptions that can cross the client's boundaries, classified by Python
class: `zabbix` is `ZabbixAPIException` (the only class the library defines),
`httpError` is the `requests.HTTPError` from `raise_for_status()`, and
`other` is any unrelated exception. -/
inductive PyExc where
  | zabbix (k : ZabbixKind)
  | httpError
  | typeError (msg : String)
  | other (tag : String)

/-- Python `str.rstrip("/")`: drop every trailing slash. -/
def rstripSlash (s : String) : String :=
  String.mk ((s.data.reverse.dropWhile (fun c => c == '/')).reverse)

/-- Python `str.endswith(suffix)` via character lists. -/
def strEndsWith (s suffix : String) : Bool :=
  List.isPrefixOf suffix.data.reverse s.data.reverse

/-- The URL normalization in `ZabbixAPI.__init__`:
`if not server.endswith("/api_jsonrpc.php"): server = server.rstrip("/") + "/api_jsonrpc.php"`. -/
def normalize_url (server : String) : String :=
  if strEndsWith server "/api_jsonrpc.php" then server
  else rstripSlash server ++ "/api_jsonrpc.php"

/-- The initial client state built by `ZabbixAPI.__init__`. -/
def init (server : String) (use_authenticate : Bool) (timeout : Option Nat)
    (detect_version : Bool) : ClientState :=
  { use_authenticate := use_authenticate
    use_api_token := false
    auth := ""
    id := 0
    timeout := timeout
    url := normalize_url server
    version := none
    detect_version := detect_version }

/-- The envelope `do_request` builds and posts: `params or {}` (Python
truthiness), `id` from the counter, and `auth` attached only when the held
token is truthy and the method is neither `apiinfo.version` nor
`user.checkAuthentication`. -/
def build_payload (st : ClientState) (method : String) (params : Option Value) :
    Payload :=
  let base : Payload :=
    { jsonrpc := "2.0"
      method := method
      params := match params with
        | none => Value.obj []
        | some v => if v.falsy then Value.obj [] else v
      auth := none
      id := st.id }
  if st.auth != "" && method != "apiinfo.version" &&
      method != "user.checkAuthentication" then
    { base with auth := some st.auth }
  else
    base

/-- Result of one `do_request`: the returned response or raised exception,
the client state afterwards, and the envelope that was posted. -/
structure DoRequestOut where
  outcome : Except PyExc RpcResponse
  state : ClientState
  sent : Payload

/-- The request executor `ZabbixAPI.do_request`, parametrised by the transport's answer.  The
checks run in source order: `raise_for_status()`, the empty-body check, JSON
decoding, then `self.id += 1`, then the `error`-key check with the
ZBX-9340 `"No data"` default. -/
def do_request (st : ClientState) (method : String) (params : Option Value)
    (resp : WireResponse) : DoRequestOut :=
  let payload := build_payload st method params
  if !resp.status_ok then
    { outcome := Except.error PyExc.httpError, state := st, sent := payload }
  else if resp.body_text == "" then
    { outcome := Except.error (PyExc.zabbix ZabbixKind.emptyResponse)
      state := st, sent := payload }
  else
    match resp.parsed with
    | none =>
        { outcome := Except.error (PyExc.zabbix (ZabbixKind.parseFailure resp.body_text))
          state := st, sent := payload }
    | some response =>
        let st2 : ClientState := { st with id := st.id + 1 }
        match response.error with
        | some err =>
            { outcome := Except.error (PyExc.zabbix
                (ZabbixKind.apiErr err.code err.message (err.data.getD "No data")))
              state := st2, sent := payload }
        | none =>
            { outcome := Except.ok response, state := st2, sent := payload }

/-- Result of invoking a bound method reference: the `result` value or raised
exception, the state afterwards, and how many times `do_request` ran. -/
structure CallOut where
  outcome : Except PyExc Value
  state : ClientState
  requests : Nat

/-- Bound method invocation `ZabbixAPIMethod.__call__`: `TypeError` when both positional and keyword
arguments are given, otherwise `do_request(method, args or kwargs)["result"]`. -/
def method_call (st : ClientState) (method : String) (args : List Value)
    (kwargs : List (String × Value)) (resp : WireResponse) : CallOut :=
  if !args.isEmpty && !kwargs.isEmpty then
    { outcome := Except.error (PyExc.typeError "Found both args and kwargs")
      state := st, requests := 0 }
  else
    let params : Value := if !args.isEmpty then Value.arr args else Value.obj kwargs
    let out := do_request st method (some params) resp
    match out.outcome with
    | Except.ok r => { outcome := Except.ok r.result, state := out.state, requests := 1 }
    | Except.error e => { outcome := Except.error e, state := out.state, requests := 1 }

/-- Result of the `is_authenticated` property. -/
structure QueryOut where
  outcome : Except PyExc Bool
  state : ClientState
  requests : Nat

/-- The query `ZabbixAPI.is_authenticated`: short-circuit `True` for an API token,
otherwise `user.checkAuthentication(sessionid=self.auth)` with
`except ZabbixAPIException: return False`. -/
def is_authenticated (st : ClientState) (resp : WireResponse) : QueryOut :=
  if st.use_api_token then
    { outcome := Except.ok true, state := st, requests := 0 }
  else
    let out := method_call st "user.checkAuthentication" []
      [("sessionid", Value.str st.auth)] resp
    match out.outcome with
    | Except.ok _ => { outcome := Except.ok true, state := out.state, requests := out.requests }
    | Except.error (PyExc.zabbix _) =>
        { outcome := Except.ok false, state := out.state, requests := out.requests }
    | Except.error e =>
        { outcome := Except.error e, state := out.state, requests := out.requests }

/-- Outcome of `__exit__`: whether the exception is suppressed (`return True`
vs `return None`), the final state, and how many `user.logout` calls ran. -/
structure ExitOut where
  suppress : Bool
  state : ClientState
  logout_calls : Nat

/-- The test `isinstance(exception_value, (ZabbixAPIException, type(None)))`. -/
def isZabbixOrNone : Option PyExc → Bool
  | none => true
  | some (PyExc.zabbix _) => true
  | some _ => false

/-- The scope-exit handler `ZabbixAPI.__exit__`, parametrised by the transport answers its own
`is_authenticated` check and `user.logout()` call would receive.  An
exception raised by those inner calls propagates out of `__exit__` itself
(the `Except.error` result). -/
def exit_handler (st : ClientState) (exc : Option PyExc)
    (checkResp logoutResp : WireResponse) : Except PyExc ExitOut :=
  if isZabbixOrNone exc then
    let q := is_authenticated st checkResp
    match q.outcome with
    | Except.error e => Except.error e
    | Except.ok b =>
        if b && !st.use_api_token then
          let out := method_call q.state "user.logout" [] [] logoutResp
          match out.outcome with
          | Except.error e => Except.error e
          | Except.ok _ =>
              Except.ok { suppress := true, state := out.state, logout_calls := 1 }
        else
          Except.ok { suppress := true, state := q.state, logout_calls := 0 }
  else
    Except.ok { suppress := false, state := st, logout_calls := 0 }

/-- Which of the three authentication RPCs `login` issues, with the keyword
used for the user name. -/
inductive AuthCall where
  | legacyAuth (user password : String)
  | loginUsername (username password : String)
  | loginUser (user password : String)
deriving Repr, DecidableEq

/-- An authentication RPC together with the token the client held at the
moment the call was issued. -/
structure IssuedCall where
  call : AuthCall
  auth_at_call : String
deriving Repr, DecidableEq

/-- Result of `login`. -/
structure LoginOut where
  state : ClientState
  calls : List IssuedCall

/-- The session login `ZabbixAPI.login`, parametrised by the version the `apiinfo.version`
round-trip would report (used only when `detect_version` is set) and by the
token string the authentication RPC would return.  Mirrors the source:
version detection, the api-token short cut, `self.auth = ""` before the
credential call, then the three-way dispatch on `use_authenticate` and
`self.version and self.version >= Version("5.4.0")`. -/
def login (st : ClientState) (user password : String) (api_token : Option String)
    (detected : Version) (tokenResult : String) : LoginOut :=
  let st1 := if st.detect_version then { st with version := some detected } else st
  match api_token with
  | some t =>
      { state := { st1 with use_api_token := true, auth := t }, calls := [] }
  | none =>
      let st2 := { st1 with auth := "" }
      if st2.use_authenticate then
        { state := { st2 with auth := tokenResult }
          calls := [{ call := AuthCall.legacyAuth user password
                      auth_at_call := st2.auth }] }
      else
        match st2.version with
        | some v =>
            if Version.ge v { major := 5, minor := 4, patch := 0 } then
              { state := { st2 with auth := tokenResult }
                calls := [{ call := AuthCall.loginUsername user password
                            auth_at_call := st2.auth }] }
            else
              { state := { st2 with auth := tokenResult }
                calls := [{ call := AuthCall.loginUser user password
                            auth_at_call := st2.auth }] }
        | none =>
            { state := { st2 with auth := tokenResult }
              calls := [{ call := AuthCall.loginUser user password
                          auth_at_call := st2.auth }] }

/-- One step of a call sequence: the method, its params, and the transport's
answer for that round-trip. -/
structure RunStep where
  method : String
  params : Option Value
  resp : WireResponse

/-- Run a sequence of `do_request` calls, collecting the envelopes sent. -/
def run_calls (st : ClientState) : List RunStep → List Payload × ClientState
  | [] => ([], st)
  | step :: rest =>
      let out := do_request st step.method step.params step.resp
      let next := run_calls out.state rest
      (out.sent :: next.1, next.2)

/-- The transport answer passed the status, non-empty-body and JSON-decoding
checks (exactly when `do_request` reaches `self.id += 1`). -/
def parsedOk (r : WireResponse) : Bool :=
  r.status_ok && !(r.body_text == "") && r.parsed.isSome

/-- The transport answer makes `do_request` return normally: it parses and
carries no `error` key. -/
def respSuccess (r : WireResponse) : Bool :=
  r.status_ok && !(r.body_text == "") &&
    (match r.parsed with
      | some p => (match p.error with | none => true | some _ => false)
      | none => false)

/-! ### Concrete fixtures used by witnesses and counterexamples -/

/-- A fresh client for a normalized server URL. -/
def stFresh : ClientState := init "http://host/zabbix" false none true

/-- A client holding a credentials-obtained token. -/
def stCred : ClientState := { stFresh with auth := "credtok" }

/-- A client holding a static API token. -/
def stTok : ClientState := { stFresh with auth := "T", use_api_token := true }

/-- Transport answer: HTTP success with an empty body. -/
def respEmpty : WireResponse := { status_ok := true, body_text := "", parsed := none }

/-- Transport answer: a successful response with a null result. -/
def respOkay : WireResponse :=
  { status_ok := true, body_text := "ok"
    parsed := some { jsonrpc := "2.0", result := Value.null, error := none, id := 0 } }

/-! ### Supporting lemmas -/

theorem isPrefixOf_self_append (l t : List Char) :
    List.isPrefixOf l (l ++ t) = true := by
  induction l with
  | nil => simp
  | cons a as ih => simp [ih]

theorem strEndsWith_append (s t : String) : strEndsWith (s ++ t) t = true := by
  unfold strEndsWith
  rw [String.data_append, List.reverse_append]
  exact isPrefixOf_self_append _ _

theorem build_payload_id (st : ClientState) (m : String) (p : Option Value) :
    (build_payload st m p).id = st.id := by
  cases p <;> simp [build_payload, apply_ite]

theorem do_request_sent (st : ClientState) (m : String) (p : Option Value)
    (resp : WireResponse) :
    (do_request st m p resp).sent = build_payload st m p := by
  obtain ⟨sOk, bTxt, prs⟩ := resp
  rcases prs with _ | ⟨j, res, err, i⟩
  · cases sOk <;> by_cases hB : bTxt = "" <;> simp [do_request, hB]
  · rcases err with _ | e <;> cases sOk <;> by_cases hB : bTxt = "" <;>
      simp [do_request, hB]

theorem do_request_id (st : ClientState) (m : String) (p : Option Value)
    (resp : WireResponse) :
    (do_request st m p resp).state.id
        = (if parsedOk resp then st.id + 1 else st.id) := by
  obtain ⟨sOk, bTxt, prs⟩ := resp
  rcases prs with _ | ⟨j, res, err, i⟩
  · cases sOk <;> by_cases hB : bTxt = "" <;> simp [do_request, parsedOk, hB]
  · rcases err with _ | e <;> cases sOk <;> by_cases hB : bTxt = "" <;>
      simp [do_request, parsedOk, hB]

/-! ### Claims -/

/-- Claim C9: constructor URL normalization maps both `"http://host/zabbix/"`
and `"http://host/zabbix/api_jsonrpc.php"` to the same endpoint
`"http://host/zabbix/api_jsonrpc.php"`, and is idempotent. -/
theorem C9_url_normalization :
    normalize_url "http://host/zabbix/" = "http://host/zabbix/api_jsonrpc.php" ∧
    normalize_url "http://host/zabbix/api_jsonrpc.php"
        = "http://host/zabbix/api_jsonrpc.php" ∧
    ∀ s, normalize_url (normalize_url s) = normalize_url s := by
  refine ⟨by decide, by decide, ?_⟩
  intro s
  by_cases h : strEndsWith s "/api_jsonrpc.php" = true
  · simp [normalize_url, h]
  · simp [normalize_url, h, strEndsWith_append]

/-- Claim C1 (counterexample): on an HTTP-success response with an empty body,
`do_request` raises the empty-response `ZabbixAPIException` but the id counter
has NOT advanced — contradicting "the counter increments exactly once per
request regardless of success or failure". -/
theorem C1_counterexample :
    (do_request stFresh "host.get" none respEmpty).outcome
        = Except.error (PyExc.zabbix ZabbixKind.emptyResponse) ∧
    (do_request stFresh "host.get" none respEmpty).state.id = stFresh.id ∧
    ¬ (do_request stFresh "host.get" none respEmpty).state.id = stFresh.id + 1 := by
  refine ⟨rfl, rfl, by decide⟩

/-- Claim C1 (amended): every envelope sent carries the counter value at send
time; the counter advances exactly once per request whose response passes the
HTTP-status, non-empty-body and JSON-decoding checks, and is unchanged when
any of those checks fails — in particular, on an empty body the
empty-response `ZabbixAPIException` is raised and the counter is unchanged. -/
theorem C1_id_per_request (st : ClientState) (method : String)
    (params : Option Value) (resp : WireResponse) :
    (do_request st method params resp).sent.id = st.id ∧
    (do_request st method params resp).state.id
        = (if parsedOk resp then st.id + 1 else st.id) ∧
    (resp.status_ok = true → resp.body_text = "" →
      (do_request st method params resp).outcome
          = Except.error (PyExc.zabbix ZabbixKind.emptyResponse) ∧
      (do_request st method params resp).state.id = st.id) := by
  refine ⟨?_, do_request_id st method params resp, ?_⟩
  · rw [do_request_sent]
    exact build_payload_id st method params
  · intro hS hB
    simp [do_request, hS, hB]

/-- Claim C1 (amended, witness). -/
theorem C1_id_per_request_witness :
    (do_request stFresh "host.get" none respEmpty).outcome
        = Except.error (PyExc.zabbix ZabbixKind.emptyResponse) ∧
    (do_request stFresh "host.get" none respEmpty).state.id = stFresh.id :=
  (C1_id_per_request stFresh "host.get" none respEmpty).2.2 rfl rfl

theorem do_request_state (st : ClientState) (m : String) (p : Option Value)
    (resp : WireResponse) :
    (do_request st m p resp).state
        = (if parsedOk resp then { st with id := st.id + 1 } else st) := by
  obtain ⟨sOk, bTxt, prs⟩ := resp
  rcases prs with _ | ⟨j, res, err, i⟩
  · cases sOk <;> by_cases hB : bTxt = "" <;> simp [do_request, parsedOk, hB]
  · rcases err with _ | e <;> cases sOk <;> by_cases hB : bTxt = "" <;>
      simp [do_request, parsedOk, hB]

theorem build_payload_auth (st : ClientState) (m : String) (p : Option Value) :
    (build_payload st m p).auth
        = (if st.auth != "" && m != "apiinfo.version" &&
              m != "user.checkAuthentication"
            then some st.auth else none) := by
  cases hc : (st.auth != "" && m != "apiinfo.version" &&
      m != "user.checkAuthentication") <;>
    cases p <;> simp [build_payload, hc]

/-- Claim C10: whatever the outcome, `do_request` leaves every client field
except the id counter unchanged: URL, auth token, detected version, the two
mode flags and the timeout are preserved. -/
theorem C10_do_request_frame (st : ClientState) (m : String) (p : Option Value)
    (resp : WireResponse) :
    (do_request st m p resp).state.url = st.url ∧
    (do_request st m p resp).state.auth = st.auth ∧
    (do_request st m p resp).state.version = st.version ∧
    (do_request st m p resp).state.use_api_token = st.use_api_token ∧
    (do_request st m p resp).state.use_authenticate = st.use_authenticate ∧
    (do_request st m p resp).state.timeout = st.timeout ∧
    (do_request st m p resp).state.detect_version = st.detect_version := by
  rw [do_request_state]
  by_cases h : parsedOk resp = true <;> simp [h]

/-- Claim C6: the envelope sent carries the `auth` key iff the held token is
non-empty and the method is neither `apiinfo.version` nor
`user.checkAuthentication`; when present, it is exactly the held token. -/
theorem C6_auth_attachment (st : ClientState) (m : String) (p : Option Value)
    (resp : WireResponse) :
    ((do_request st m p resp).sent.auth.isSome = true ↔
      (st.auth ≠ "" ∧ m ≠ "apiinfo.version" ∧ m ≠ "user.checkAuthentication")) ∧
    (∀ a, (do_request st m p resp).sent.auth = some a → a = st.auth) := by
  have hs : (do_request st m p resp).sent.auth
      = (if st.auth != "" && m != "apiinfo.version" &&
            m != "user.checkAuthentication"
          then some st.auth else none) := by
    rw [do_request_sent, build_payload_auth]
  cases hc : (st.auth != "" && m != "apiinfo.version" &&
      m != "user.checkAuthentication") <;> rw [hc] at hs <;> simp at hs
  case false =>
    simp only [Bool.and_eq_false_iff, bne_eq_false_iff_eq] at hc
    refine ⟨?_, ?_⟩
    · rw [hs]
      simp only [Option.isSome_none, Bool.false_eq_true, false_iff]
      intro h
      rcases hc with (hc | hc) | hc
      · exact h.1 hc
      · exact h.2.1 hc
      · exact h.2.2 hc
    · intro a ha
      rw [hs] at ha
      cases ha
  case true =>
    simp only [Bool.and_eq_true, bne_iff_ne, ne_eq] at hc
    refine ⟨?_, ?_⟩
    · rw [hs]
      simp only [Option.isSome_some, true_iff]
      exact ⟨hc.1.1, hc.1.2, hc.2⟩
    · intro a ha
      rw [hs] at ha
      exact (Option.some_inj.mp ha).symm

/-- Claim C6 (witness). -/
theorem C6_auth_attachment_witness :
    (do_request stCred "host.get" none respOkay).sent.auth = some "credtok" :=
  (C6_auth_attachment stCred "host.get" none respOkay).2 "credtok" rfl ▸ rfl

/-- Claim C5: invoking a bound method reference with both positional and
keyword arguments raises the caller-misuse `TypeError` (`InvalidCallError`)
and performs zero network calls: `do_request` never runs and the client state
(in particular the id counter) is unchanged. -/
theorem C5_both_args_kwargs (st : ClientState) (m : String) (args : List Value)
    (kwargs : List (String × Value)) (resp : WireResponse)
    (ha : args ≠ []) (hk : kwargs ≠ []) :
    method_call st m args kwargs resp
        = { outcome := Except.error (PyExc.typeError "Found both args and kwargs")
            state := st, requests := 0 } := by
  rcases args with _ | ⟨a, as⟩
  · exact absurd rfl ha
  rcases kwargs with _ | ⟨k, ks⟩
  · exact absurd rfl hk
  rfl

/-- Claim C5 (witness). -/
theorem C5_both_args_kwargs_witness :
    method_call stFresh "host.get" [Value.num 1] [("a", Value.num 2)] respOkay
        = { outcome := Except.error (PyExc.typeError "Found both args and kwargs")
            state := stFresh, requests := 0 } :=
  C5_both_args_kwargs stFresh "host.get" [Value.num 1] [("a", Value.num 2)]
    respOkay (List.cons_ne_nil _ _) (List.cons_ne_nil _ _)

/-- A server error explicitly carrying the sentinel text in `data`. -/
def errSentinel : RpcError := { code := 1, message := "m", data := some "No data" }

/-- Response body whose error explicitly carries the sentinel text. -/
def bodySentinel : RpcResponse :=
  { jsonrpc := "2.0", result := Value.null, error := some errSentinel, id := 0 }

/-- Transport answer delivering `bodySentinel`. -/
def respSentinel : WireResponse :=
  { status_ok := true, body_text := "e", parsed := some bodySentinel }

/-- A server error omitting `data`. -/
def errNoData : RpcError := { code := 2, message := "boom", data := none }

/-- Response body whose error omits `data`. -/
def bodyErrNoData : RpcResponse :=
  { jsonrpc := "2.0", result := Value.null, error := some errNoData, id := 0 }

/-- Transport answer delivering `bodyErrNoData`. -/
def respErrNoData : WireResponse :=
  { status_ok := true, body_text := "e", parsed := some bodyErrNoData }

/-- Claim C4 (counterexample): when the server itself sends `data = "No data"`,
the raised error's data attribute equals the sentinel even though the `data`
field was NOT omitted — so "data equals the sentinel iff the field was
omitted" fails in the only-if direction. -/
theorem C4_counterexample :
    (do_request stFresh "host.get" none respSentinel).outcome
        = Except.error (PyExc.zabbix (ZabbixKind.apiErr 1 "m" "No data")) ∧
    respSentinel.parsed = some bodySentinel ∧
    bodySentinel.error = some errSentinel ∧
    errSentinel.data ≠ none :=
  ⟨rfl, rfl, rfl, by decide⟩

/-- Claim C4 (amended): a parsed response containing `error` always raises the
server-error `ZabbixAPIException` carrying the error's code and message, and a
data attribute that equals the server's `data` value when the field is present
and the sentinel `"No data"` when it is omitted (hence the sentinel appears
whenever the field is omitted, but also when the server itself sends that
exact string). -/
theorem C4_api_error_data (st : ClientState) (m : String) (p : Option Value)
    (resp : WireResponse) (r : RpcResponse) (err : RpcError)
    (hS : resp.status_ok = true) (hB : resp.body_text ≠ "")
    (hP : resp.parsed = some r) (hE : r.error = some err) :
    (do_request st m p resp).outcome
        = Except.error (PyExc.zabbix
            (ZabbixKind.apiErr err.code err.message (err.data.getD "No data"))) ∧
    (err.data = none → err.data.getD "No data" = "No data") ∧
    (∀ d, err.data = some d → err.data.getD "No data" = d) := by
  refine ⟨?_, ?_, ?_⟩
  · simp [do_request, hS, hB, hP, hE]
  · intro h
    simp [h]
  · intro d h
    simp [h]

/-- Claim C4 (amended, witness). -/
theorem C4_api_error_data_witness :
    respErrNoData.parsed = some bodyErrNoData ∧
    bodyErrNoData.error = some errNoData ∧
    (do_request stFresh "host.get" none respErrNoData).outcome
        = Except.error (PyExc.zabbix (ZabbixKind.apiErr 2 "boom" "No data")) :=
  ⟨rfl, rfl,
    (C4_api_error_data stFresh "host.get" none respErrNoData bodyErrNoData
      errNoData rfl (by decide) rfl rfl).1⟩

theorem method_call_nil_args (st : ClientState) (m : String)
    (kw : List (String × Value)) (resp : WireResponse) :
    method_call st m [] kw resp
      = (match (do_request st m (some (Value.obj kw)) resp).outcome with
          | Except.ok r =>
              { outcome := Except.ok r.result
                state := (do_request st m (some (Value.obj kw)) resp).state
                requests := 1 }
          | Except.error e =>
              { outcome := Except.error e
                state := (do_request st m (some (Value.obj kw)) resp).state
                requests := 1 }) := rfl

theorem method_call_requests_nil (st : ClientState) (m : String)
    (kw : List (String × Value)) (resp : WireResponse) :
    (method_call st m [] kw resp).requests = 1 := by
  rw [method_call_nil_args]
  cases (do_request st m (some (Value.obj kw)) resp).outcome <;> rfl

theorem do_request_success (st : ClientState) (m : String) (p : Option Value)
    (resp : WireResponse) (h : respSuccess resp = true) :
    ∃ r, resp.parsed = some r ∧ (do_request st m p resp).outcome = Except.ok r := by
  obtain ⟨sOk, bTxt, prs⟩ := resp
  rcases prs with _ | ⟨j, res, err, i⟩
  · simp [respSuccess] at h
  · rcases err with _ | e
    · simp only [respSuccess, Bool.and_eq_true, Bool.not_eq_eq_eq_not,
        Bool.not_true, beq_eq_false_iff_ne, ne_eq] at h
      exact ⟨_, rfl, by simp [do_request, h.1.1, h.1.2]⟩
    · simp [respSuccess] at h

theorem method_call_success (st : ClientState) (m : String)
    (kw : List (String × Value)) (resp : WireResponse)
    (h : respSuccess resp = true) :
    ∃ v, (method_call st m [] kw resp).outcome = Except.ok v := by
  obtain ⟨r, _, hdo⟩ := do_request_success st m (some (Value.obj kw)) resp h
  refine ⟨r.result, ?_⟩
  rw [method_call_nil_args, hdo]

theorem parsedOk_of_success (r : WireResponse) (h : respSuccess r = true) :
    parsedOk r = true := by
  obtain ⟨sOk, bTxt, prs⟩ := r
  rcases prs with _ | ⟨j, res, err, i⟩
  · simp [respSuccess] at h
  · rcases err with _ | e
    · simp only [respSuccess, Bool.and_eq_true] at h
      simp [parsedOk, h.1.1, h.1.2]
    · simp [respSuccess] at h

theorem is_authenticated_of_ok (st : ClientState) (resp : WireResponse)
    (h : st.use_api_token = false) (v : Value)
    (hmc : (method_call st "user.checkAuthentication" []
        [("sessionid", Value.str st.auth)] resp).outcome = Except.ok v) :
    (is_authenticated st resp).outcome = Except.ok true ∧
    (is_authenticated st resp).state
        = (method_call st "user.checkAuthentication" []
            [("sessionid", Value.str st.auth)] resp).state := by
  simp [is_authenticated, h, hmc]

/-- Claim C3 (counterexample): with credentials (no API token) held, an
empty-body transport failure of the authentication check — a protocol-level
error, not a server `ApiError` — is swallowed by `is_authenticated` and
converted into `false` instead of propagating. -/
theorem C3_counterexample :
    (is_authenticated stCred respEmpty).outcome = Except.ok false ∧
    (method_call stCred "user.checkAuthentication" []
        [("sessionid", Value.str stCred.auth)] respEmpty).outcome
      = Except.error (PyExc.zabbix ZabbixKind.emptyResponse) :=
  ⟨rfl, rfl⟩

/-- Claim C3 (amended): `is_authenticated` returns `true` with no network
call when an API token is in use; otherwise it performs exactly one
`user.checkAuthentication` request with the held token and returns `true`
iff it succeeds, returns `false` iff it raises a `ZabbixAPIException` (a
server `ApiError` or the empty-body/undecodable-body protocol errors), and
propagates exactly the non-`ZabbixAPIException` failures (the HTTP status
error). -/
theorem C3_is_authenticated (st : ClientState) (resp : WireResponse) :
    (st.use_api_token = true →
      is_authenticated st resp
          = { outcome := Except.ok true, state := st, requests := 0 }) ∧
    (st.use_api_token = false →
      (is_authenticated st resp).requests = 1 ∧
      ((is_authenticated st resp).outcome = Except.ok true ↔
        ∃ r, (method_call st "user.checkAuthentication" []
            [("sessionid", Value.str st.auth)] resp).outcome = Except.ok r) ∧
      ((is_authenticated st resp).outcome = Except.ok false ↔
        ∃ k, (method_call st "user.checkAuthentication" []
            [("sessionid", Value.str st.auth)] resp).outcome
          = Except.error (PyExc.zabbix k)) ∧
      ((is_authenticated st resp).outcome = Except.error PyExc.httpError ↔
        (method_call st "user.checkAuthentication" []
            [("sessionid", Value.str st.auth)] resp).outcome
          = Except.error PyExc.httpError)) := by
  constructor
  · intro h
    simp [is_authenticated, h]
  · intro h
    refine ⟨?_, ?_⟩
    · simp [is_authenticated, h]
      rcases hmc : (method_call st "user.checkAuthentication" []
          [("sessionid", Value.str st.auth)] resp).outcome with e | r
      · have := method_call_requests_nil st "user.checkAuthentication"
          [("sessionid", Value.str st.auth)] resp
        cases e <;> simp [hmc, this]
      · have := method_call_requests_nil st "user.checkAuthentication"
          [("sessionid", Value.str st.auth)] resp
        simp [hmc, this]
    · rcases hmc : (method_call st "user.checkAuthentication" []
          [("sessionid", Value.str st.auth)] resp).outcome with e | r
      · cases e <;> simp [is_authenticated, h, hmc]
      · simp [is_authenticated, h, hmc]

/-- Claim C3 (amended, witness): with an API token, `true` and no request. -/
theorem C3_is_authenticated_witness :
    is_authenticated stTok respEmpty
        = { outcome := Except.ok true, state := stTok, requests := 0 } :=
  (C3_is_authenticated stTok respEmpty).1 rfl

/-- Claim C2 (counterexample): with a static API token held and an `ApiError`
propagating, `__exit__` suppresses the exception even though no logout call
was made — contradicting both "in the AuthenticatedByToken state nothing is
done" and "suppression happens only after the logout side effect was
performed". -/
theorem C2_counterexample :
    exit_handler stTok (some (PyExc.zabbix (ZabbixKind.apiErr 1 "m" "No data")))
        respOkay respOkay
      = Except.ok { suppress := true, state := stTok, logout_calls := 0 } ∧
    stTok.use_api_token = true :=
  ⟨rfl, rfl⟩

theorem is_authenticated_of_zabbix (st : ClientState) (resp : WireResponse)
    (h : st.use_api_token = false) (k : ZabbixKind)
    (hmc : (method_call st "user.checkAuthentication" []
        [("sessionid", Value.str st.auth)] resp).outcome
      = Except.error (PyExc.zabbix k)) :
    (is_authenticated st resp).outcome = Except.ok false ∧
    (is_authenticated st resp).state
        = (method_call st "user.checkAuthentication" []
            [("sessionid", Value.str st.auth)] resp).state := by
  simp [is_authenticated, h, hmc]

theorem is_authenticated_of_httpError (st : ClientState) (resp : WireResponse)
    (h : st.use_api_token = false)
    (hmc : (method_call st "user.checkAuthentication" []
        [("sessionid", Value.str st.auth)] resp).outcome
      = Except.error PyExc.httpError) :
    (is_authenticated st resp).outcome = Except.error PyExc.httpError := by
  simp [is_authenticated, h, hmc]

/-- Claim C2 (amended): on scope exit, an exception that is neither absent
nor a `ZabbixAPIException` (`ApiError`/`ProtocolError`) propagates
unsuppressed with no logout call and no state change.  When the exception is
absent or a `ZabbixAPIException`: with an API token in use it is suppressed
with no logout call; without an API token the handler runs its own
authentication check, and (a) if that check fails with a `ZabbixAPIException`
(e.g. the session is unauthenticated) the exception is still suppressed with
no logout call, (b) if the check succeeds and the logout round-trip returns,
exactly one `user.logout` call is issued and the exception is suppressed,
(c) if the check fails with the non-Zabbix HTTP status error, or the logout
call itself raises, that error propagates out of the exit handler and
nothing is suppressed. -/
theorem C2_exit_handler (st : ClientState) (exc : Option PyExc)
    (checkResp logoutResp : WireResponse) :
    (isZabbixOrNone exc = false →
      exit_handler st exc checkResp logoutResp
          = Except.ok { suppress := false, state := st, logout_calls := 0 }) ∧
    (isZabbixOrNone exc = true → st.use_api_token = true →
      exit_handler st exc checkResp logoutResp
          = Except.ok { suppress := true, state := st, logout_calls := 0 }) ∧
    (isZabbixOrNone exc = true → st.use_api_token = false →
      ∀ k, (method_call st "user.checkAuthentication" []
          [("sessionid", Value.str st.auth)] checkResp).outcome
        = Except.error (PyExc.zabbix k) →
      exit_handler st exc checkResp logoutResp
          = Except.ok
              { suppress := true,
                state := (method_call st "user.checkAuthentication" []
                    [("sessionid", Value.str st.auth)] checkResp).state,
                logout_calls := 0 }) ∧
    (isZabbixOrNone exc = true → st.use_api_token = false →
      ∀ v, (method_call st "user.checkAuthentication" []
          [("sessionid", Value.str st.auth)] checkResp).outcome = Except.ok v →
      ∀ w, (method_call (method_call st "user.checkAuthentication" []
          [("sessionid", Value.str st.auth)] checkResp).state
          "user.logout" [] [] logoutResp).outcome = Except.ok w →
      exit_handler st exc checkResp logoutResp
          = Except.ok
              { suppress := true,
                state := (method_call (method_call st "user.checkAuthentication" []
                    [("sessionid", Value.str st.auth)] checkResp).state
                    "user.logout" [] [] logoutResp).state,
                logout_calls := 1 }) ∧
    (isZabbixOrNone exc = true → st.use_api_token = false →
      (method_call st "user.checkAuthentication" []
          [("sessionid", Value.str st.auth)] checkResp).outcome
        = Except.error PyExc.httpError →
      exit_handler st exc checkResp logoutResp
          = Except.error PyExc.httpError) ∧
    (isZabbixOrNone exc = true → st.use_api_token = false →
      ∀ v, (method_call st "user.checkAuthentication" []
          [("sessionid", Value.str st.auth)] checkResp).outcome = Except.ok v →
      ∀ e, (method_call (method_call st "user.checkAuthentication" []
          [("sessionid", Value.str st.auth)] checkResp).state
          "user.logout" [] [] logoutResp).outcome = Except.error e →
      exit_handler st exc checkResp logoutResp = Except.error e) := by
  refine ⟨?_, ?_, ?_, ?_, ?_, ?_⟩
  · intro h
    simp [exit_handler, h]
  · intro h1 h2
    simp [exit_handler, is_authenticated, h1, h2]
  · intro h1 h2 k hk
    obtain ⟨hi1, hi2⟩ := is_authenticated_of_zabbix st checkResp h2 k hk
    simp [exit_handler, h1, h2, hi1, hi2]
  · intro h1 h2 v hv w hw
    obtain ⟨hi1, hi2⟩ := is_authenticated_of_ok st checkResp h2 v hv
    simp [exit_handler, h1, h2, hi1, hi2, hw]
  · intro h1 h2 hk
    have hi := is_authenticated_of_httpError st checkResp h2 hk
    simp [exit_handler, h1, hi]
  · intro h1 h2 v hv e he
    obtain ⟨hi1, hi2⟩ := is_authenticated_of_ok st checkResp h2 v hv
    simp [exit_handler, h1, h2, hi1, hi2, he]

/-- Claim C2 (amended, witness): credentials state, no exception, successful
check and logout round-trips: suppression with exactly one logout call. -/
theorem C2_exit_handler_witness :
    exit_handler stCred none respOkay respOkay
        = Except.ok
            { suppress := true,
              state := (method_call (method_call stCred "user.checkAuthentication" []
                  [("sessionid", Value.str stCred.auth)] respOkay).state
                  "user.logout" [] [] respOkay).state,
              logout_calls := 1 } :=
  (C2_exit_handler stCred none respOkay respOkay).2.2.2.1 rfl rfl
    Value.null rfl Value.null rfl

/-- The version attribute in effect after `login`'s optional detection step
(`self.version` stays falsy-empty unless detection ran or a previous login
stored one). -/
def effVersion (st : ClientState) (detected : Version) : Option Version :=
  if st.detect_version then some detected else st.version

/-- Claim C7: login without an API token issues exactly one authentication
call — the legacy `user.authenticate` when `use_authenticate` is set,
otherwise the modern `user.login` with the `username` keyword when the
version in effect is at least `5.4.0` (in particular exactly `5.4.0`), and
with the `user` keyword otherwise (including when no version is known); the
held token is the empty string at the moment of the call and equals the
returned token afterwards. -/
theorem C7_login_dispatch (st : ClientState) (u p : String) (detected : Version)
    (tok : String) :
    (login st u p none detected tok).calls.length = 1 ∧
    (∀ c, c ∈ (login st u p none detected tok).calls → c.auth_at_call = "") ∧
    (login st u p none detected tok).state.auth = tok ∧
    (st.use_authenticate = true →
      (login st u p none detected tok).calls
          = [{ call := AuthCall.legacyAuth u p, auth_at_call := "" }]) ∧
    (st.use_authenticate = false → ∀ v, effVersion st detected = some v →
      Version.ge v { major := 5, minor := 4, patch := 0 } = true →
      (login st u p none detected tok).calls
          = [{ call := AuthCall.loginUsername u p, auth_at_call := "" }]) ∧
    (st.use_authenticate = false → ∀ v, effVersion st detected = some v →
      Version.ge v { major := 5, minor := 4, patch := 0 } = false →
      (login st u p none detected tok).calls
          = [{ call := AuthCall.loginUser u p, auth_at_call := "" }]) ∧
    (st.use_authenticate = false → effVersion st detected = none →
      (login st u p none detected tok).calls
          = [{ call := AuthCall.loginUser u p, auth_at_call := "" }]) := by
  by_cases hd : st.detect_version = true
  · by_cases hu : st.use_authenticate = true
    · simp [login, effVersion, hd, hu]
    · cases hge : Version.ge detected { major := 5, minor := 4, patch := 0 } <;>
        simp [login, effVersion, hd, hu, hge]
  · by_cases hu : st.use_authenticate = true
    · rcases hv : st.version with _ | v <;> simp [login, effVersion, hd, hu, hv]
    · rcases hv : st.version with _ | v
      · simp [login, effVersion, hd, hu, hv]
      · cases hge : Version.ge v { major := 5, minor := 4, patch := 0 } <;>
          simp [login, effVersion, hd, hu, hv, hge]

/-- Claim C7 (witness): a detected version of exactly `5.4.0` selects the
`username`-keyword login, issued with the token cleared. -/
theorem C7_login_dispatch_witness :
    (login stFresh "u" "p" none { major := 5, minor := 4, patch := 0 } "tok").calls
        = [{ call := AuthCall.loginUsername "u" "p", auth_at_call := "" }] :=
  (C7_login_dispatch stFresh "u" "p" { major := 5, minor := 4, patch := 0 }
      "tok").2.2.2.2.1 rfl { major := 5, minor := 4, patch := 0 } rfl rfl

theorem run_calls_ids (steps : List RunStep) :
    ∀ st : ClientState, (steps.all fun s => respSuccess s.resp) = true →
      ∀ k (hk : k < (run_calls st steps).1.length),
        ((run_calls st steps).1.get ⟨k, hk⟩).id = st.id + k := by
  induction steps with
  | nil =>
      intro st h k hk
      simp [run_calls] at hk
  | cons s rest ih =>
      intro st h k hk
      simp only [List.all_cons, Bool.and_eq_true] at h
      cases k with
      | zero =>
          have h0 : ((run_calls st (s :: rest)).1.get ⟨0, hk⟩)
              = (do_request st s.method s.params s.resp).sent := rfl
          rw [h0, do_request_sent, build_payload_id]
          omega
      | succ k =>
          have hk' : k < (run_calls (do_request st s.method s.params
              s.resp).state rest).1.length := by
            have hlen : (run_calls st (s :: rest)).1.length
                = (run_calls (do_request st s.method s.params
                    s.resp).state rest).1.length + 1 := rfl
            omega
          have hget : (run_calls st (s :: rest)).1.get ⟨k + 1, hk⟩
              = (run_calls (do_request st s.method s.params
                  s.resp).state rest).1.get ⟨k, hk'⟩ := rfl
          rw [hget, ih (do_request st s.method s.params s.resp).state h.2 k hk',
            do_request_id, if_pos (parsedOk_of_success s.resp h.1)]
          omega

/-- Claim C8: for a sequence of successful calls the k-th (0-based) envelope
sent carries id `initial + k`, and a freshly constructed client starts with
id 0 (so a fresh client's k-th envelope carries id k). -/
theorem C8_sequential_ids (server : String) (ua : Bool) (t : Option Nat)
    (dv : Bool) (st : ClientState) (steps : List RunStep)
    (h : (steps.all fun s => respSuccess s.resp) = true) :
    (init server ua t dv).id = 0 ∧
    ∀ k (hk : k < (run_calls st steps).1.length),
      ((run_calls st steps).1.get ⟨k, hk⟩).id = st.id + k :=
  ⟨rfl, run_calls_ids steps st h⟩

/-- A call step whose transport answer succeeds. -/
def stepOkay : RunStep := { method := "host.get", params := none, resp := respOkay }

/-- Claim C8 (witness): on a fresh client, the second envelope of two
successful calls carries id 1 = 0 + 1. -/
theorem C8_sequential_ids_witness :
    (init "http://host/zabbix" false none true).id = 0 ∧
    ((run_calls stFresh [stepOkay, stepOkay]).1.get ⟨1, by decide⟩).id
        = stFresh.id + 1 :=
  ⟨(C8_sequential_ids "http://host/zabbix" false none true stFresh
      [stepOkay, stepOkay] (by decide)).1,
    (C8_sequential_ids "http://host/zabbix" false none true stFresh
      [stepOkay, stepOkay] (by decide)).2 1 (by decide)⟩

end Pyzabbix
